import Mathlib

/-!
Shallow embedding of the camera capture engine of
`src/sensor/drivers/camera_driver/camera_driver.c` (with its header
`camera_driver.h`), and proofs of specification properties about it.

Machine integers of the C code (`u32`, `unsigned int`) are modelled as `Nat`:
every quantity involved (widths up to 1280, heights up to 720, image sizes up
to 1280*720*2, buffer counts up to 4) is far below 2^32, so no wraparound can
occur in the modelled arithmetic.
-/

namespace CameraDriver

/-! ## Constants from the source -/

/-- `V4L2_PIX_FMT_MJPEG` = v4l2_fourcc of "MJPG". -/
def V4L2_PIX_FMT_MJPEG : Nat := 0x47504A4D

/-- `V4L2_PIX_FMT_YUYV` = v4l2_fourcc of "YUYV". -/
def V4L2_PIX_FMT_YUYV : Nat := 0x56595559

/-- `V4L2_FIELD_NONE` from `videodev2.h`. -/
def V4L2_FIELD_NONE : Nat := 1

/-- `V4L2_COLORSPACE_SRGB` from `videodev2.h`. -/
def V4L2_COLORSPACE_SRGB : Nat := 8

/-- `#define MAX_BUFFERS 4` (camera_driver.c line 24). -/
def MAX_BUFFERS : Nat := 4

/-- `#define MIN_BUFFERS 2` (camera_driver.c line 25). -/
def MIN_BUFFERS : Nat := 2

/-- The kernel `clamp(val, lo, hi)` macro: `min(max(val, lo), hi)`. -/
def clamp (val lo hi : Nat) : Nat := min (max val lo) hi

/-- The kernel `ALIGN(x, a)` macro rounds `x` up to the next multiple of `a`.
For a power of two `a` the C definition `(x + a - 1) & ~(a - 1)` equals
`((x + a - 1) / a) * a`, which is the form used here. -/
def ALIGN (x a : Nat) : Nat := ((x + a - 1) / a) * a

/-! ## Data model -/

/-- The fields of `struct v4l2_pix_format` that `camera_try_fmt` reads or
writes (`f->fmt.pix`). -/
@[ext]
structure V4l2PixFormat where
  width : Nat
  height : Nat
  pixelformat : Nat
  bytesperline : Nat
  sizeimage : Nat
  field : Nat
  colorspace : Nat
deriving DecidableEq

/-- Linux error codes returned by the driver (negated in C; the sign is
dropped here and success is the `Except.ok` constructor). -/
inductive Errno where
  | EBUSY
  | EINVAL
deriving DecidableEq

/-- `enum camera_state` (camera_driver.c lines 32-37). -/
inductive CameraState where
  | disconnected
  | connected
  | streaming
  | error
deriving DecidableEq

/-- `enum vb2_buffer_state` values the driver passes to `vb2_buffer_done`. -/
inductive Vb2BufState where
  | done
  | error
  | queued
deriving DecidableEq

/-- The state of `struct camera_device` (camera_driver.c lines 48-76) that the
modelled operations touch: the device state, the stored format, the vb2
queue's allocated-buffer count (what `vb2_is_busy` inspects), the driver's
pending-buffer list `buf_list` (buffer indices), the buffers completed so far
via `vb2_buffer_done` together with the state each was completed in, and the
two statistics counters of the `.c` file. -/
structure CameraDevice where
  state : CameraState
  format : V4l2PixFormat
  numBuffers : Nat
  bufList : List Nat
  doneBuffers : List (Nat × Vb2BufState)
  framesReceived : Nat
  framesDropped : Nat
deriving DecidableEq

/-- `vb2_is_busy(q)`: true iff the queue has buffers allocated
(`q->num_buffers > 0`). -/
def vb2_is_busy (dev : CameraDevice) : Bool := dev.numBuffers != 0

/-! ## Format negotiation (camera_try_fmt, camera_s_fmt, camera_g_fmt) -/

/-- The pixel-format validation step of `camera_try_fmt` (camera_driver.c
lines 194-198): a format that is neither MJPEG nor YUYV is overwritten with
MJPEG. -/
def coerce_pixelformat (pf : Nat) : Nat :=
  if pf ≠ V4L2_PIX_FMT_MJPEG ∧ pf ≠ V4L2_PIX_FMT_YUYV then V4L2_PIX_FMT_MJPEG
  else pf

/-- The update `camera_try_fmt` (camera_driver.c lines 189-221) performs on
`f->fmt.pix`: coerce an unrecognized pixel format to MJPEG, clamp width to
[160,1280] and height to [120,720], align width to 16 and height to 2, then
derive `bytesperline` and `sizeimage` from the pixel format. -/
def camera_try_fmt_pix (pix : V4l2PixFormat) : V4l2PixFormat :=
  let pf := coerce_pixelformat pix.pixelformat
  let w := ALIGN (clamp pix.width 160 1280) 16
  let h := ALIGN (clamp pix.height 120 720) 2
  let bpl := if pf = V4L2_PIX_FMT_YUYV then w * 2 else 0
  let sz := if pf = V4L2_PIX_FMT_YUYV then bpl * h else w * h
  { width := w, height := h, pixelformat := pf, bytesperline := bpl,
    sizeimage := sz, field := V4L2_FIELD_NONE, colorspace := V4L2_COLORSPACE_SRGB }

/-- `camera_try_fmt` as the ioctl sees it: it always returns 0 (success),
with the descriptor rewritten in place. -/
def camera_try_fmt (pix : V4l2PixFormat) : Except Errno V4l2PixFormat :=
  Except.ok (camera_try_fmt_pix pix)

/-- `camera_s_fmt` (camera_driver.c lines 171-186): fail with `-EBUSY` if the
vb2 queue is busy; otherwise run `camera_try_fmt` and, on its success, store
the negotiated format. Returns the possibly-updated device and the ioctl
result. -/
def camera_s_fmt (dev : CameraDevice) (f : V4l2PixFormat) :
    CameraDevice × Except Errno V4l2PixFormat :=
  if vb2_is_busy dev then
    (dev, Except.error Errno.EBUSY)
  else
    match camera_try_fmt f with
    | Except.error e => (dev, Except.error e)
    | Except.ok f2 => ({ dev with format := f2 }, Except.ok f2)

/-- `camera_g_fmt` (camera_driver.c lines 161-168): returns the stored
format. -/
def camera_g_fmt (dev : CameraDevice) : V4l2PixFormat := dev.format

/-! ## Buffer management (camera_queue_setup, camera_buf_queue,
camera_return_all_buffers) -/

/-- The outputs of `camera_queue_setup`: `*nbuffers`, `*nplanes` and
`sizes[0]` after the call. -/
structure QueueSetupResult where
  nbuffers : Nat
  nplanes : Nat
  size0 : Nat
deriving DecidableEq

/-- `camera_queue_setup` (camera_driver.c lines 228-252). When `*nplanes` is
already set it only validates `sizes[0]` against the stored image size;
otherwise it announces one plane of `sizeimage` bytes and clamps `*nbuffers`
into `[MIN_BUFFERS, MAX_BUFFERS]`. -/
def camera_queue_setup (dev : CameraDevice) (nbuffers nplanes size0 : Nat) :
    Except Errno QueueSetupResult :=
  let size := dev.format.sizeimage
  if nplanes ≠ 0 then
    if size0 < size then Except.error Errno.EINVAL
    else Except.ok ⟨nbuffers, nplanes, size0⟩
  else
    let nb1 := if nbuffers < MIN_BUFFERS then MIN_BUFFERS else nbuffers
    let nb2 := if nb1 > MAX_BUFFERS then MAX_BUFFERS else nb1
    Except.ok ⟨nb2, 1, size⟩

/-- `camera_buf_queue` (camera_driver.c lines 271-281): append the buffer to
the driver's pending list `buf_list`. -/
def camera_buf_queue (dev : CameraDevice) (i : Nat) : CameraDevice :=
  { dev with bufList := dev.bufList ++ [i] }

/-- `camera_return_all_buffers` (camera_driver.c lines 436-448): complete
every buffer on `buf_list` via `vb2_buffer_done` in the given state and empty
the list. -/
def camera_return_all_buffers (dev : CameraDevice) (st : Vb2BufState) :
    CameraDevice :=
  { dev with
    bufList := []
    doneBuffers := dev.doneBuffers ++ dev.bufList.map (fun i => (i, st)) }

/-! ## Streaming control -/

/-- `camera_init_streaming` (camera_driver.c lines 421-426): a placeholder
that always returns 0. -/
def camera_init_streaming : Except Errno Unit := Except.ok ()

/-- `camera_start_streaming` (camera_driver.c lines 284-303): initialize USB
streaming (the placeholder succeeds), then set the state to `STREAMING` and
reset `frames_received` and `frames_dropped` to zero. -/
def camera_start_streaming (dev : CameraDevice) :
    CameraDevice × Except Errno Unit :=
  match camera_init_streaming with
  | Except.error e => (dev, Except.error e)
  | Except.ok _ =>
      ({ dev with
          state := CameraState.streaming
          framesReceived := 0
          framesDropped := 0 },
        Except.ok ())

/-- `camera_stop_streaming` (camera_driver.c lines 306-319): stop USB
streaming (a no-op placeholder), complete every pending buffer in the
`VB2_BUF_STATE_ERROR` state, and set the device state to `CONNECTED`. -/
def camera_stop_streaming (dev : CameraDevice) : CameraDevice :=
  let dev1 := camera_return_all_buffers dev Vb2BufState.error
  { dev1 with state := CameraState.connected }

/-! ## The control surface as a step machine

The driver's vb2 entry points (`vb2_ioctl_reqbufs`, `vb2_ioctl_qbuf`,
`vb2_ioctl_streamon`, `vb2_ioctl_streamoff`) route through the vb2 core,
whose relevant checks are: `reqbufs` fails with `-EBUSY` while streaming,
`streamon` fails with `-EINVAL` when no buffers are allocated and is a no-op
when already streaming, and `streamoff` only invokes the driver's
`stop_streaming` when streaming was active. -/
inductive Op where
  | reqbufs (count : Nat)
  | qbuf (i : Nat)
  | streamon
  | streamoff
  | s_fmt (f : V4l2PixFormat)
deriving DecidableEq

/-- One control operation applied to the device (the device part of the
effect; each ioctl's return value is recoverable from the definitions it
routes through). -/
def applyOp (op : Op) (dev : CameraDevice) : CameraDevice :=
  match op with
  | Op.s_fmt f => (camera_s_fmt dev f).1
  | Op.reqbufs n =>
      if dev.state = CameraState.streaming then dev
      else if n = 0 then { dev with numBuffers := 0, bufList := [] }
      else
        match camera_queue_setup dev n 0 0 with
        | Except.ok r => { dev with numBuffers := r.nbuffers, bufList := [] }
        | Except.error _ => dev
  | Op.qbuf i =>
      if i < dev.numBuffers then camera_buf_queue dev i else dev
  | Op.streamon =>
      if dev.state = CameraState.streaming then dev
      else if dev.numBuffers = 0 then dev
      else (camera_start_streaming dev).1
  | Op.streamoff =>
      if dev.state = CameraState.streaming then camera_stop_streaming dev
      else dev

/-- The device as `camera_probe` and `camera_create_video_device` leave it:
connected, default 640x480 MJPEG format (the probe path never computes
`bytesperline`/`sizeimage`, so they stay zero from `kzalloc`), no buffers,
zeroed statistics. -/
def camera_probe_dev : CameraDevice :=
  { state := CameraState.connected
    format :=
      { width := 640, height := 480, pixelformat := V4L2_PIX_FMT_MJPEG,
        bytesperline := 0, sizeimage := 0, field := V4L2_FIELD_NONE,
        colorspace := V4L2_COLORSPACE_SRGB }
    numBuffers := 0
    bufList := []
    doneBuffers := []
    framesReceived := 0
    framesDropped := 0 }

/-- Devices reachable from probe through the control surface. -/
inductive ReachableCam : CameraDevice → Prop where
  | init : ReachableCam camera_probe_dev
  | step (op : Op) (d : CameraDevice) :
      ReachableCam d → ReachableCam (applyOp op d)

/-! ## Frame assembly (YUYV mode)

Modelled from the spec: the repository declares the frame-assembly state
(`struct camera_streaming` in camera_driver.h, fields `frame_buffer`,
`frame_pos`, `frame_complete`) and the completion entry point
(`camera_urb_complete`), but `camera_init_streaming` and
`camera_stop_usb_streaming` in camera_driver.c are placeholders with no URB
or assembly logic, so the assembler body is not under src/. The definitions
below follow spec §4.2, YUYV mode: purely byte-counting; each incoming span
is appended to the buffer currently Filling; when `bytes_filled` reaches
`image_size_bytes` the buffer is marked Ready immediately and a fresh buffer
starts Filling; a span that would overflow is truncated to the remaining
space, the overflow is discarded and counted as a dropped-frame event, and
the buffer is still completed at the expected boundary. -/

/-- Modelled from the spec: the assembler's state in YUYV mode — the active
`image_size_bytes`, the byte count of the buffer currently Filling, the
`bytes_filled` values of the buffers marked Ready so far (in completion
order), and the dropped-frame event count. -/
structure AssemblerState where
  imageSize : Nat
  bytesFilled : Nat
  ready : List Nat
  dropped : Nat
deriving DecidableEq

/-- Modelled from the spec: feeding one incoming span of `n` bytes to the
YUYV assembler (spec §4.2, YUYV mode). -/
def feedSpanYUYV (s : AssemblerState) (n : Nat) : AssemblerState :=
  let room := s.imageSize - s.bytesFilled
  if n < room then
    { s with bytesFilled := s.bytesFilled + n }
  else
    { s with
      bytesFilled := 0
      ready := s.ready ++ [s.imageSize]
      dropped := s.dropped + (if room < n then 1 else 0) }

/-- Modelled from the spec: feeding a sequence of spans, left to right. -/
def feedAllYUYV (s : AssemblerState) (spans : List Nat) : AssemblerState :=
  spans.foldl feedSpanYUYV s

/-- Modelled from the spec: the assembler's state when streaming starts on an
image size of `sz` bytes — an empty buffer Filling, nothing Ready, nothing
dropped. -/
def initAssembler (sz : Nat) : AssemblerState :=
  { imageSize := sz, bytesFilled := 0, ready := [], dropped := 0 }

/-! ## Concrete instances used to exercise the definitions -/

/-- A 640x480 YUYV request, as in the spec's capture scenario. -/
def pixYUYV640 : V4l2PixFormat :=
  { width := 640, height := 480, pixelformat := V4L2_PIX_FMT_YUYV,
    bytesperline := 0, sizeimage := 0, field := 0, colorspace := 0 }

/-- A request with an unrecognized pixel format (fourcc 0). -/
def pixUnknown : V4l2PixFormat :=
  { width := 640, height := 480, pixelformat := 0,
    bytesperline := 0, sizeimage := 0, field := 0, colorspace := 0 }

/-- A device brought to the `Streaming` state through the control surface:
probe, request 4 buffers, queue buffers 0 and 1, stream on. -/
def devStreaming : CameraDevice :=
  applyOp Op.streamon (applyOp (Op.qbuf 1) (applyOp (Op.qbuf 0)
    (applyOp (Op.reqbufs 4) camera_probe_dev)))

/-- A device with buffers allocated and nonzero statistics, as left by an
earlier streaming session that delivered frames. -/
def devWithStats : CameraDevice :=
  { camera_probe_dev with numBuffers := 4, framesReceived := 5, framesDropped := 3 }

/-! ## Helper lemmas -/

theorem clamp_le (val lo hi : Nat) (h : lo ≤ hi) :
    lo ≤ clamp val lo hi ∧ clamp val lo hi ≤ hi := by
  unfold clamp
  omega

theorem clamp_of_mem (val lo hi : Nat) (h1 : lo ≤ val) (h2 : val ≤ hi) :
    clamp val lo hi = val := by
  unfold clamp
  omega

theorem ALIGN16_bounds (c : Nat) (h1 : 160 ≤ c) (h2 : c ≤ 1280) :
    160 ≤ ALIGN c 16 ∧ ALIGN c 16 ≤ 1280 ∧ ALIGN c 16 % 16 = 0 := by
  unfold ALIGN
  omega

theorem ALIGN2_bounds (c : Nat) (h1 : 120 ≤ c) (h2 : c ≤ 720) :
    120 ≤ ALIGN c 2 ∧ ALIGN c 2 ≤ 720 ∧ ALIGN c 2 % 2 = 0 := by
  unfold ALIGN
  omega

theorem ALIGN16_of_multiple (c : Nat) (h : c % 16 = 0) : ALIGN c 16 = c := by
  unfold ALIGN
  omega

theorem ALIGN2_of_multiple (c : Nat) (h : c % 2 = 0) : ALIGN c 2 = c := by
  unfold ALIGN
  omega

theorem coerce_pixelformat_cases (pf : Nat) :
    coerce_pixelformat pf = V4L2_PIX_FMT_MJPEG ∨
    coerce_pixelformat pf = V4L2_PIX_FMT_YUYV := by
  by_cases h1 : pf = V4L2_PIX_FMT_MJPEG
  · simp [coerce_pixelformat, h1]
  · by_cases h2 : pf = V4L2_PIX_FMT_YUYV
    · simp [coerce_pixelformat, h1, h2]
    · simp [coerce_pixelformat, h1, h2]

theorem coerce_pixelformat_valid (pf : Nat)
    (h : pf = V4L2_PIX_FMT_MJPEG ∨ pf = V4L2_PIX_FMT_YUYV) :
    coerce_pixelformat pf = pf := by
  unfold coerce_pixelformat
  rcases h with h | h <;> simp [h]

theorem try_fmt_pix_width (pix : V4l2PixFormat) :
    (camera_try_fmt_pix pix).width = ALIGN (clamp pix.width 160 1280) 16 := rfl

theorem try_fmt_pix_height (pix : V4l2PixFormat) :
    (camera_try_fmt_pix pix).height = ALIGN (clamp pix.height 120 720) 2 := rfl

theorem try_fmt_pix_pixelformat (pix : V4l2PixFormat) :
    (camera_try_fmt_pix pix).pixelformat = coerce_pixelformat pix.pixelformat := rfl

theorem try_fmt_pix_bytesperline (pix : V4l2PixFormat) :
    (camera_try_fmt_pix pix).bytesperline =
      if coerce_pixelformat pix.pixelformat = V4L2_PIX_FMT_YUYV then
        ALIGN (clamp pix.width 160 1280) 16 * 2
      else 0 := rfl

theorem try_fmt_pix_sizeimage (pix : V4l2PixFormat) :
    (camera_try_fmt_pix pix).sizeimage =
      if coerce_pixelformat pix.pixelformat = V4L2_PIX_FMT_YUYV then
        (if coerce_pixelformat pix.pixelformat = V4L2_PIX_FMT_YUYV then
          ALIGN (clamp pix.width 160 1280) 16 * 2
        else 0) * ALIGN (clamp pix.height 120 720) 2
      else ALIGN (clamp pix.width 160 1280) 16 * ALIGN (clamp pix.height 120 720) 2 := rfl

theorem try_fmt_pix_field (pix : V4l2PixFormat) :
    (camera_try_fmt_pix pix).field = V4L2_FIELD_NONE := rfl

theorem try_fmt_pix_colorspace (pix : V4l2PixFormat) :
    (camera_try_fmt_pix pix).colorspace = V4L2_COLORSPACE_SRGB := rfl

/-! ## Claim theorems: format negotiation -/

/-- C2: for every requested format descriptor, `camera_try_fmt` clamps the
width into [160,1280] and the height into [120,720] and then aligns the width
up to a multiple of 16 and the height up to a multiple of 2; the returned
descriptor carries exactly the clamped-then-aligned dimensions, which also
still lie inside the advertised ranges. -/
theorem try_fmt_clamps_and_aligns (pix : V4l2PixFormat) :
    (camera_try_fmt_pix pix).width = ALIGN (clamp pix.width 160 1280) 16 ∧
    (camera_try_fmt_pix pix).height = ALIGN (clamp pix.height 120 720) 2 ∧
    160 ≤ (camera_try_fmt_pix pix).width ∧
    (camera_try_fmt_pix pix).width ≤ 1280 ∧
    (camera_try_fmt_pix pix).width % 16 = 0 ∧
    120 ≤ (camera_try_fmt_pix pix).height ∧
    (camera_try_fmt_pix pix).height ≤ 720 ∧
    (camera_try_fmt_pix pix).height % 2 = 0 := by
  obtain ⟨hc1, hc2⟩ := clamp_le pix.width 160 1280 (by omega)
  obtain ⟨hw1, hw2, hw3⟩ := ALIGN16_bounds _ hc1 hc2
  obtain ⟨hd1, hd2⟩ := clamp_le pix.height 120 720 (by omega)
  obtain ⟨hh1, hh2, hh3⟩ := ALIGN2_bounds _ hd1 hd2
  exact ⟨rfl, rfl, hw1, hw2, hw3, hh1, hh2, hh3⟩

/-- C3: on the descriptor `camera_try_fmt` accepts, `sizeimage` is
`width*height*2` with `bytesperline = width*2` when the negotiated pixel
format is YUYV, and `width*height` when it is MJPEG; concretely, a 640x480
YUYV request yields `sizeimage = 614400`. -/
theorem try_fmt_image_size (pix : V4l2PixFormat) :
    ((camera_try_fmt_pix pix).pixelformat = V4L2_PIX_FMT_YUYV →
      (camera_try_fmt_pix pix).sizeimage =
        (camera_try_fmt_pix pix).width * (camera_try_fmt_pix pix).height * 2 ∧
      (camera_try_fmt_pix pix).bytesperline = (camera_try_fmt_pix pix).width * 2) ∧
    ((camera_try_fmt_pix pix).pixelformat = V4L2_PIX_FMT_MJPEG →
      (camera_try_fmt_pix pix).sizeimage =
        (camera_try_fmt_pix pix).width * (camera_try_fmt_pix pix).height) ∧
    (camera_try_fmt_pix pixYUYV640).sizeimage = 614400 := by
  have hne : V4L2_PIX_FMT_MJPEG ≠ V4L2_PIX_FMT_YUYV := by decide
  refine ⟨?_, ?_, by decide⟩
  · intro h
    rw [try_fmt_pix_pixelformat] at h
    constructor
    · rw [try_fmt_pix_sizeimage, if_pos h, if_pos h, try_fmt_pix_width,
        try_fmt_pix_height]
      ring
    · rw [try_fmt_pix_bytesperline, if_pos h, try_fmt_pix_width]
  · intro h
    rw [try_fmt_pix_pixelformat] at h
    rw [try_fmt_pix_sizeimage, if_neg (h ▸ hne), try_fmt_pix_width,
      try_fmt_pix_height]

/-- Witness for C3 at the concrete 640x480 YUYV request. -/
theorem try_fmt_image_size_witness :
    (camera_try_fmt_pix pixYUYV640).sizeimage =
      (camera_try_fmt_pix pixYUYV640).width * (camera_try_fmt_pix pixYUYV640).height * 2 ∧
    (camera_try_fmt_pix pixYUYV640).bytesperline =
      (camera_try_fmt_pix pixYUYV640).width * 2 :=
  (try_fmt_image_size pixYUYV640).1 (by decide)

/-- C5: a request whose pixel format is neither MJPEG nor YUYV is not
rejected: `camera_try_fmt` still returns success, with the pixel format
silently coerced to the MJPEG default. -/
theorem try_fmt_coerces_unknown_format (pix : V4l2PixFormat)
    (h1 : pix.pixelformat ≠ V4L2_PIX_FMT_MJPEG)
    (h2 : pix.pixelformat ≠ V4L2_PIX_FMT_YUYV) :
    camera_try_fmt pix = Except.ok (camera_try_fmt_pix pix) ∧
    (camera_try_fmt_pix pix).pixelformat = V4L2_PIX_FMT_MJPEG := by
  refine ⟨rfl, ?_⟩
  rw [try_fmt_pix_pixelformat]
  unfold coerce_pixelformat
  rw [if_pos ⟨h1, h2⟩]

/-- Witness for C5 with the unrecognized pixel format 0. -/
theorem try_fmt_coerces_unknown_format_witness :
    camera_try_fmt pixUnknown = Except.ok (camera_try_fmt_pix pixUnknown) ∧
    (camera_try_fmt_pix pixUnknown).pixelformat = V4L2_PIX_FMT_MJPEG :=
  try_fmt_coerces_unknown_format pixUnknown (by decide) (by decide)

/-- C9: `camera_try_fmt`'s clamp/align/size computation is idempotent — run
on its own output it returns that output unchanged. -/
theorem try_fmt_idempotent (pix : V4l2PixFormat) :
    camera_try_fmt_pix (camera_try_fmt_pix pix) = camera_try_fmt_pix pix := by
  obtain ⟨hc1, hc2⟩ := clamp_le pix.width 160 1280 (by omega)
  obtain ⟨hw1, hw2, hw3⟩ := ALIGN16_bounds _ hc1 hc2
  obtain ⟨hd1, hd2⟩ := clamp_le pix.height 120 720 (by omega)
  obtain ⟨hh1, hh2, hh3⟩ := ALIGN2_bounds _ hd1 hd2
  have hwfix : ALIGN (clamp (ALIGN (clamp pix.width 160 1280) 16) 160 1280) 16
      = ALIGN (clamp pix.width 160 1280) 16 := by
    rw [clamp_of_mem _ _ _ hw1 hw2, ALIGN16_of_multiple _ hw3]
  have hhfix : ALIGN (clamp (ALIGN (clamp pix.height 120 720) 2) 120 720) 2
      = ALIGN (clamp pix.height 120 720) 2 := by
    rw [clamp_of_mem _ _ _ hh1 hh2, ALIGN2_of_multiple _ hh3]
  have hpf : coerce_pixelformat (coerce_pixelformat pix.pixelformat)
      = coerce_pixelformat pix.pixelformat :=
    coerce_pixelformat_valid _ (coerce_pixelformat_cases pix.pixelformat)
  ext <;>
    simp only [try_fmt_pix_width, try_fmt_pix_height, try_fmt_pix_pixelformat,
      try_fmt_pix_bytesperline, try_fmt_pix_sizeimage, try_fmt_pix_field,
      try_fmt_pix_colorspace, hpf, hwfix, hhfix]

/-- C10: `camera_s_fmt` never fails with `-EINVAL`; whenever the vb2 queue is
not busy it succeeds, storing and returning the coerced descriptor, so its
only possible error is the busy condition. -/
theorem s_fmt_only_fails_busy (dev : CameraDevice) (f : V4l2PixFormat) :
    (camera_s_fmt dev f).2 ≠ Except.error Errno.EINVAL ∧
    (vb2_is_busy dev = false →
      camera_s_fmt dev f =
        ({ dev with format := camera_try_fmt_pix f },
          Except.ok (camera_try_fmt_pix f))) := by
  unfold camera_s_fmt camera_try_fmt
  by_cases hb : vb2_is_busy dev
  · simp [hb]
  · simp [hb]

/-- Witness for C10 on the freshly probed device. -/
theorem s_fmt_only_fails_busy_witness :
    camera_s_fmt camera_probe_dev pixYUYV640 =
      ({ camera_probe_dev with format := camera_try_fmt_pix pixYUYV640 },
        Except.ok (camera_try_fmt_pix pixYUYV640)) :=
  (s_fmt_only_fails_busy camera_probe_dev pixYUYV640).2 (by decide)

/-! ## Claim theorems: the state machine -/

theorem s_fmt_preserves_state_buffers (dev : CameraDevice) (f : V4l2PixFormat) :
    (camera_s_fmt dev f).1.state = dev.state ∧
    (camera_s_fmt dev f).1.numBuffers = dev.numBuffers := by
  unfold camera_s_fmt camera_try_fmt
  by_cases hb : vb2_is_busy dev <;> simp [hb]

/-- Through every control operation, a device in the `Streaming` state has a
nonzero vb2 buffer count: streaming can only be entered through `streamon`,
which the vb2 core rejects when no buffers are allocated, and `reqbufs`
cannot free buffers while streaming. -/
theorem streaming_has_buffers (d : CameraDevice) (hr : ReachableCam d) :
    d.state = CameraState.streaming → d.numBuffers ≠ 0 := by
  induction hr with
  | init =>
    intro hs
    simp [camera_probe_dev] at hs
  | step op d hd ih =>
    intro hs
    cases op with
    | s_fmt f =>
      obtain ⟨h1, h2⟩ := s_fmt_preserves_state_buffers d f
      simp only [applyOp] at hs ⊢
      rw [h1] at hs
      rw [h2]
      exact ih hs
    | reqbufs n =>
      by_cases h1 : d.state = CameraState.streaming
      · simp only [applyOp, if_pos h1] at hs ⊢
        exact ih hs
      · exfalso
        apply h1
        have hstate : (applyOp (Op.reqbufs n) d).state = d.state := by
          simp only [applyOp, if_neg h1]
          by_cases h2 : n = 0
          · simp [h2]
          · simp [h2, camera_queue_setup]
        rw [hstate] at hs
        exact hs
    | qbuf i =>
      by_cases h : i < d.numBuffers
      · simp only [applyOp, if_pos h, camera_buf_queue] at hs ⊢
        exact ih hs
      · simp only [applyOp, if_neg h] at hs ⊢
        exact ih hs
    | streamon =>
      by_cases h1 : d.state = CameraState.streaming
      · simp only [applyOp, if_pos h1] at hs ⊢
        exact ih hs
      · by_cases h2 : d.numBuffers = 0
        · simp only [applyOp, if_neg h1, if_pos h2] at hs
          exact absurd hs h1
        · simp only [applyOp, if_neg h1, if_neg h2, camera_start_streaming,
            camera_init_streaming]
          exact h2
    | streamoff =>
      by_cases h1 : d.state = CameraState.streaming
      · simp only [applyOp, if_pos h1, camera_stop_streaming,
          camera_return_all_buffers] at hs
        exact absurd hs (by simp)
      · simp only [applyOp, if_neg h1] at hs ⊢
        exact ih hs

/-- C1: on any device reached through the control surface that is in the
`Streaming` state, `camera_s_fmt` returns `-EBUSY` and leaves the device —
in particular its stored format — unchanged. -/
theorem s_fmt_busy_while_streaming (d : CameraDevice) (f : V4l2PixFormat)
    (hr : ReachableCam d) (hs : d.state = CameraState.streaming) :
    camera_s_fmt d f = (d, Except.error Errno.EBUSY) ∧
    (camera_s_fmt d f).1.format = d.format := by
  have hb : vb2_is_busy d = true := by
    have hnb := streaming_has_buffers d hr hs
    unfold vb2_is_busy
    simpa using hnb
  unfold camera_s_fmt
  rw [hb]
  simp

/-- Witness for C1 on a concrete streaming device. -/
theorem s_fmt_busy_while_streaming_witness :
    camera_s_fmt devStreaming pixYUYV640 = (devStreaming, Except.error Errno.EBUSY) ∧
    (camera_s_fmt devStreaming pixYUYV640).1.format = devStreaming.format :=
  s_fmt_busy_while_streaming devStreaming pixYUYV640
    (ReachableCam.step Op.streamon _ (ReachableCam.step (Op.qbuf 1) _
      (ReachableCam.step (Op.qbuf 0) _ (ReachableCam.step (Op.reqbufs 4) _
        ReachableCam.init))))
    (by decide)

/-- C4: on the `reqbufs` path (`*nplanes = 0`), `camera_queue_setup` succeeds
with the buffer count clamped into `[MIN_BUFFERS, MAX_BUFFERS] = [2, 4]`: a
request below 2 yields 2, a request above 4 yields 4, and a request already
in range is kept. -/
theorem queue_setup_clamps_buffer_count (dev : CameraDevice) (n size0 : Nat) :
    camera_queue_setup dev n 0 size0 =
      Except.ok ⟨min (max n MIN_BUFFERS) MAX_BUFFERS, 1, dev.format.sizeimage⟩ ∧
    MIN_BUFFERS ≤ min (max n MIN_BUFFERS) MAX_BUFFERS ∧
    min (max n MIN_BUFFERS) MAX_BUFFERS ≤ MAX_BUFFERS ∧
    (n < MIN_BUFFERS → min (max n MIN_BUFFERS) MAX_BUFFERS = MIN_BUFFERS) ∧
    (MAX_BUFFERS < n → min (max n MIN_BUFFERS) MAX_BUFFERS = MAX_BUFFERS) ∧
    (MIN_BUFFERS ≤ n → n ≤ MAX_BUFFERS → min (max n MIN_BUFFERS) MAX_BUFFERS = n) := by
  constructor
  · simp only [camera_queue_setup]
    rw [if_neg (by omega : ¬(0 : Nat) ≠ 0)]
    have hmm : (if (if n < MIN_BUFFERS then MIN_BUFFERS else n) > MAX_BUFFERS then
          MAX_BUFFERS
        else if n < MIN_BUFFERS then MIN_BUFFERS else n) =
        min (max n MIN_BUFFERS) MAX_BUFFERS := by
      unfold MIN_BUFFERS MAX_BUFFERS
      split_ifs <;> omega
    rw [hmm]
  · unfold MIN_BUFFERS MAX_BUFFERS
    refine ⟨by omega, by omega, fun h => by omega, fun h => by omega,
      fun h1 h2 => by omega⟩

/-- Witness for C4: a request of 1 buffer yields 2, a request of 7 yields 4. -/
theorem queue_setup_clamps_buffer_count_witness :
    camera_queue_setup camera_probe_dev 1 0 0 =
      Except.ok ⟨MIN_BUFFERS, 1, camera_probe_dev.format.sizeimage⟩ ∧
    camera_queue_setup camera_probe_dev 7 0 0 =
      Except.ok ⟨MAX_BUFFERS, 1, camera_probe_dev.format.sizeimage⟩ := by
  constructor
  · have h := queue_setup_clamps_buffer_count camera_probe_dev 1 0
    rw [h.1, h.2.2.2.1 (by decide)]
  · have h := queue_setup_clamps_buffer_count camera_probe_dev 7 0
    rw [h.1, h.2.2.2.2.1 (by decide)]

/-- C6: `camera_stop_streaming` on a streaming device leaves the state
`Connected`, completes every buffer that was on the pending list in the
`VB2_BUF_STATE_ERROR` state, and empties the pending list. -/
theorem stop_streaming_flushes (dev : CameraDevice)
    (_hs : dev.state = CameraState.streaming) :
    (camera_stop_streaming dev).state = CameraState.connected ∧
    (camera_stop_streaming dev).bufList = [] ∧
    (camera_stop_streaming dev).doneBuffers =
      dev.doneBuffers ++ dev.bufList.map (fun i => (i, Vb2BufState.error)) :=
  ⟨rfl, rfl, rfl⟩

/-- Witness for C6 on a concrete streaming device with queued buffers. -/
theorem stop_streaming_flushes_witness :
    (camera_stop_streaming devStreaming).state = CameraState.connected ∧
    (camera_stop_streaming devStreaming).bufList = [] ∧
    (camera_stop_streaming devStreaming).doneBuffers =
      devStreaming.doneBuffers ++
        devStreaming.bufList.map (fun i => (i, Vb2BufState.error)) :=
  stop_streaming_flushes devStreaming (by decide)

/-- C7 counterexample: `streamon` on a device whose `frames_received` counter
is 5 from an earlier session resets the counter to 0, so a control operation
does decrease a statistics counter. -/
theorem stats_not_monotonic_counterexample :
    (applyOp Op.streamon devWithStats).framesReceived <
      devWithStats.framesReceived := by
  decide

/-- C7 amended: no control operation other than `streamon` ever changes the
statistics counters, and `streamon` either leaves them unchanged or resets
both `frames_received` and `frames_dropped` to zero (the only decrease). -/
theorem stats_only_reset_by_start (op : Op) (d : CameraDevice) :
    ((applyOp op d).framesReceived = d.framesReceived ∧
      (applyOp op d).framesDropped = d.framesDropped) ∨
    (op = Op.streamon ∧ (applyOp op d).framesReceived = 0 ∧
      (applyOp op d).framesDropped = 0) := by
  cases op with
  | s_fmt f =>
    left
    unfold applyOp camera_s_fmt camera_try_fmt
    by_cases hb : vb2_is_busy d <;> simp [hb]
  | reqbufs n =>
    left
    unfold applyOp
    by_cases h1 : d.state = CameraState.streaming
    · simp [h1]
    · by_cases h2 : n = 0
      · simp [h1, h2]
      · simp [h1, h2, camera_queue_setup]
  | qbuf i =>
    left
    unfold applyOp camera_buf_queue
    by_cases h : i < d.numBuffers <;> simp [h]
  | streamoff =>
    left
    unfold applyOp camera_stop_streaming camera_return_all_buffers
    by_cases h : d.state = CameraState.streaming <;> simp [h]
  | streamon =>
    by_cases h1 : d.state = CameraState.streaming
    · left
      simp [applyOp, h1]
    · by_cases h2 : d.numBuffers = 0
      · left
        simp [applyOp, h1, h2]
      · right
        refine ⟨rfl, ?_, ?_⟩ <;>
          simp [applyOp, h1, h2, camera_start_streaming, camera_init_streaming]

/-! ## Claim theorems: YUYV frame assembly -/

theorem feedAllYUYV_cons (s : AssemblerState) (n : Nat) (spans : List Nat) :
    feedAllYUYV s (n :: spans) = feedAllYUYV (feedSpanYUYV s n) spans := rfl

theorem feedSpanYUYV_zero (s : AssemblerState)
    (hf : s.bytesFilled < s.imageSize) : feedSpanYUYV s 0 = s := by
  unfold feedSpanYUYV
  rw [if_pos (by omega : (0 : Nat) < s.imageSize - s.bytesFilled)]
  simp

theorem feedAll_sum_zero (spans : List Nat) (s : AssemblerState)
    (h0 : spans.sum = 0) (hf : s.bytesFilled < s.imageSize) :
    feedAllYUYV s spans = s := by
  induction spans with
  | nil => rfl
  | cons n rest ih =>
    rw [List.sum_cons] at h0
    have hn : n = 0 := by omega
    subst hn
    rw [feedAllYUYV_cons, feedSpanYUYV_zero s hf]
    exact ih (by omega)

theorem feedAll_completes (spans : List Nat) :
    ∀ s : AssemblerState, s.bytesFilled < s.imageSize →
      s.bytesFilled + spans.sum = s.imageSize →
      (feedAllYUYV s spans).ready = s.ready ++ [s.imageSize] ∧
      (feedAllYUYV s spans).dropped = s.dropped ∧
      (feedAllYUYV s spans).bytesFilled = 0 := by
  induction spans with
  | nil =>
    intro s h1 h2
    rw [List.sum_nil] at h2
    omega
  | cons n rest ih =>
    intro s h1 h2
    rw [List.sum_cons] at h2
    by_cases hn : n < s.imageSize - s.bytesFilled
    · have hstep : feedSpanYUYV s n = { s with bytesFilled := s.bytesFilled + n } := by
        unfold feedSpanYUYV
        rw [if_pos hn]
      have hrec := ih { s with bytesFilled := s.bytesFilled + n }
        (by simp; omega) (by simp; omega)
      rw [feedAllYUYV_cons, hstep]
      simpa using hrec
    · have hroom : n = s.imageSize - s.bytesFilled := by omega
      have hrest0 : rest.sum = 0 := by omega
      have hstep : feedSpanYUYV s n =
          { s with
            bytesFilled := 0
            ready := s.ready ++ [s.imageSize]
            dropped := s.dropped } := by
        unfold feedSpanYUYV
        rw [if_neg hn]
        have hifz : (if s.imageSize - s.bytesFilled < n then 1 else 0) = 0 :=
          if_neg (by omega)
        rw [hifz]
        simp
      rw [feedAllYUYV_cons, hstep, feedAll_sum_zero rest _ hrest0 (by simp; omega)]
      exact ⟨rfl, rfl, rfl⟩

/-- C8: in YUYV mode, feeding any sequence of spans whose lengths sum to
`image_size_bytes` — from 1-byte chunks to a single full-length span —
produces exactly one `Ready` buffer, completed at `bytes_filled =
image_size_bytes`, with no dropped-frame event. -/
theorem yuyv_assembly_split_invariant (spans : List Nat) (sz : Nat)
    (hsz : 0 < sz) (hsum : spans.sum = sz) :
    (feedAllYUYV (initAssembler sz) spans).ready = [sz] ∧
    (feedAllYUYV (initAssembler sz) spans).dropped = 0 := by
  obtain ⟨h1, h2, h3⟩ := feedAll_completes spans (initAssembler sz)
    (by simp [initAssembler]; omega) (by simp [initAssembler]; omega)
  constructor
  · simpa [initAssembler] using h1
  · simpa [initAssembler] using h2

/-- Witness for C8: a 4-byte frame fed as spans of 1, 1 and 2 bytes. -/
theorem yuyv_assembly_split_invariant_witness :
    (feedAllYUYV (initAssembler 4) [1, 1, 2]).ready = [4] ∧
    (feedAllYUYV (initAssembler 4) [1, 1, 2]).dropped = 0 :=
  yuyv_assembly_split_invariant [1, 1, 2] 4 (by decide) (by decide)

end CameraDriver
